import Mathlib

/-!
# Instagram Auto Session Manager — verification of the consent/delivery pipeline

Shallow embedding of the claim-relevant parts of the extension:

* `background.js` — the background Coordinator (message handler
  `handleProcessSessionData`, the Telegram sink adapter `sendToTelegram` /
  `sendTelegramMessage`, the template formatter `formatTelegramMessage`,
  history/log bookkeeping `addToSessionHistory`, `updateSessionHistory`,
  `logActivity`, `logError`, `performLogCleanup`, `cleanupTabSessions`,
  `clearSessionData`).
* the content script (Detector) — `evaluateConsentRequest`,
  `shouldRequestConsent`, `handleConsentProcessed`, `clearSessionData`.
* the consent page (Consent Surface) — `handleConsentAction`,
  `extractInstagramSessionData`, `sendDataToTelegram`, and its copy of
  `formatTelegramMessage`.

Modelling conventions:

* JS timestamps (both `Date.now()` values and ISO strings that are only ever
  compared after `new Date(x).getTime()`) are modelled as `Int` milliseconds.
* JS string truthiness (`!s` / `s || d`) is modelled by `jsTruthy` / `jsOr`:
  an absent (`undefined`/`null`) field is `none`, and the empty string is
  falsy.
* Environment calls are parameters: `generateUniqueId()` becomes an explicit
  `id : String` argument, `new Date(x).toLocaleString()` becomes an explicit
  `locale : Option String → String` argument, and the outcome of a `fetch`
  to the Telegram API becomes an explicit `TgOutcome` argument.
* `String.prototype.replace(/pat/g, rep)` is modelled as left-to-right
  non-overlapping substitution (`replaceAllL`) whose replacement string is
  interpreted by `expandDollar`, which implements the JS `$`-replacement
  patterns for these regexes: `$$` (a dollar sign), `$&` (the matched
  text), a dollar sign followed by code 96 (the text before the match) and
  `$` followed by code 39 (the text after the match); the formatter's
  patterns contain no capture groups, so `$n`/`$<` are not special and
  stay literal.  Theorems about formatting restrict replacement values to
  ones containing neither `{` nor `$`, where expansion is provably the
  identity.
* The DOM/regex extraction layers of the consent page are modelled by a
  `PageEnv` record holding, per layer, the value that layer would produce
  (e.g. the first regex match over the page's script bodies); the
  fill-only-if-absent layering logic itself is embedded faithfully.
-/

/-- An artifact record as built by the extraction code: `sessionId` from the
`sessionid` cookie, best-effort `userId`/`username`, ISO `extractedAt`, and
the page `url`.  Fields a JS object may lack are `Option`.
(`userAgent`/`pageTitle`, which no claim touches, are omitted.) -/
structure SessionData where
  sessionId : Option String
  userId : Option String
  username : Option String
  extractedAt : Option String
  url : Option String
deriving DecidableEq, Repr

/-- JS truthiness of a possibly-absent string field: `undefined`, `null` and
`""` are falsy. -/
def jsTruthy (o : Option String) : Bool :=
  match o with
  | some s => !s.isEmpty
  | none => false

/-- JS truthiness of a present string (`!s`). -/
def jsTruthyS (s : String) : Bool := !s.isEmpty

/-- JS `o || d` on a possibly-absent string field. -/
def jsOr (o : Option String) (d : String) : String :=
  match o with
  | some s => if s.isEmpty then d else s
  | none => d

/-- JS `s || d` on a present string. -/
def jsOrS (s d : String) : String := if s.isEmpty then d else s

/-- Does `pat` match at the head of `s`? (helper for global replace). -/
def patHead : List Char → List Char → Bool
  | [], _ => true
  | _ :: _, [] => false
  | p :: ps, c :: cs => p == c && patHead ps cs

/-- The backtick character (code 96), used by the JS replacement pattern
that inserts the text preceding the match. -/
def backtickChar : Char := Char.ofNat 96

/-- The single-quote character (code 39), used by the JS replacement
pattern that inserts the text following the match. -/
def singleQuoteChar : Char := Char.ofNat 39

/-- JS `GetSubstitution` for a replacement string against a regex with no
capture groups: scans `rep` once, expanding `$$` to a dollar sign, `$&` to
the matched text, `$`+code-96 to `before` (the part of the *original*
subject string preceding the match) and `$`+code-39 to `after` (the part
following the match); any other `$`-sequence — including `$n`, since these
regexes have no groups — stays literal.  The expansion output is never
rescanned for further `$`-sequences or pattern matches. -/
def expandDollar (before matched after : List Char) : List Char → List Char
  | [] => []
  | c :: rest =>
    if c = '$' then
      match rest with
      | [] => [c]
      | d :: rest2 =>
        if d = '$' then d :: expandDollar before matched after rest2
        else if d = '&' then matched ++ expandDollar before matched after rest2
        else if d = backtickChar then before ++ expandDollar before matched after rest2
        else if d = singleQuoteChar then after ++ expandDollar before matched after rest2
        else c :: expandDollar before matched after (d :: rest2)
    else c :: expandDollar before matched after rest

/-- The scan of `s.replace(/pat/g, rep)`: `pre` is the part of the original
subject string already walked past (needed by the `$`-patterns that refer
to the text around a match).  Matches are found left-to-right and
non-overlapping in the original string only; each is replaced by the
`$`-expansion of `rep` and consumed whole. -/
def replaceAllAux (pat rep : List Char) : List Char → List Char → List Char
  | _, [] => []
  | pre, c :: cs =>
    if patHead pat (c :: cs) && !pat.isEmpty then
      expandDollar pre pat (cs.drop (pat.length - 1)) rep
        ++ replaceAllAux pat rep (pre ++ pat) (cs.drop (pat.length - 1))
    else
      c :: replaceAllAux pat rep (pre ++ [c]) cs
termination_by _ s => s.length
decreasing_by
  · simp only [List.length_drop, List.length_cons]
    omega
  · simp only [List.length_cons]
    omega

/-- Left-to-right, non-overlapping global replacement of `pat` in `s` with
the `$`-expansion of `rep`: the model of JS `s.replace(/pat/g, rep)` for a
literal, group-free pattern. -/
def replaceAllL (pat rep : List Char) (s : List Char) : List Char :=
  replaceAllAux pat rep [] s

/-- String-level wrapper for `replaceAllL`. -/
def replaceAllS (s pat rep : String) : String :=
  ⟨replaceAllL pat.data rep.data s.data⟩

/-- Does `pat` occur (as a contiguous run) anywhere in `s`? -/
def occursL (pat : List Char) : List Char → Bool
  | [] => patHead pat []
  | c :: cs => patHead pat (c :: cs) || occursL pat cs

/-- The default Telegram message template shipped in
`DEFAULT_SETTINGS.telegram.messageTemplate` (`background.js`); the consent
page embeds the same text as its fallback template. -/
def defaultTemplate : String :=
  "🔐 Instagram Session Data Detected\n\n📱 **Account Information:**\n• Session ID: {sessionId}\n• User ID: {userId}\n• Username: {username}\n\n⏰ **Timestamp:** {timestamp}\n🌐 **URL:** {url}\n\n✅ Data extracted with user consent via Instagram Auto Session Manager"

/-- `formatTelegramMessage(sessionData, template)` from `background.js`:
falls back to the default template when `template` is falsy, then replaces
the five placeholders in order; missing `sessionId`/`userId`/`username`
render as `"Not found"`, the timestamp as `new Date(extractedAt)
.toLocaleString()` (the `locale` parameter), and a missing `url` as
`"Unknown"`. -/
def formatTelegramMessage (locale : Option String → String)
    (sessionData : SessionData) (template : String) : String :=
  let t := if template.isEmpty then defaultTemplate else template
  replaceAllS
    (replaceAllS
      (replaceAllS
        (replaceAllS
          (replaceAllS t "{sessionId}" (jsOr sessionData.sessionId "Not found"))
          "{userId}" (jsOr sessionData.userId "Not found"))
        "{username}" (jsOr sessionData.username "Not found"))
      "{timestamp}" (locale sessionData.extractedAt))
    "{url}" (jsOr sessionData.url "Unknown")

/-- The consent page's copy of `formatTelegramMessage` (part_003): identical
except that a missing `url` falls back to `window.location.href` (the
`pageHref` parameter) instead of `"Unknown"`. -/
def formatTelegramMessageConsent (locale : Option String → String)
    (pageHref : String) (sessionData : SessionData) (template : String) : String :=
  let t := if template.isEmpty then defaultTemplate else template
  replaceAllS
    (replaceAllS
      (replaceAllS
        (replaceAllS
          (replaceAllS t "{sessionId}" (jsOr sessionData.sessionId "Not found"))
          "{userId}" (jsOr sessionData.userId "Not found"))
        "{username}" (jsOr sessionData.username "Not found"))
      "{timestamp}" (locale sessionData.extractedAt))
    "{url}" (jsOr sessionData.url pageHref)

/-! ## Background Coordinator (`background.js`) — data model -/

/-- `telegramSettings` (merged over `DEFAULT_SETTINGS.telegram`). -/
structure TelegramSettings where
  botToken : String
  chatId : String
  messageTemplate : String
deriving DecidableEq, Repr

/-- `privacySettings` (merged over `DEFAULT_SETTINGS.privacy`). -/
structure PrivacySettings where
  autoClearData : Bool
  clearOnClose : Bool
  showNotifications : Bool
  consentReminders : Bool
  requireConfirmation : Bool
  logActivities : Bool
deriving DecidableEq, Repr

/-- The extension settings the Coordinator keeps in
`backgroundState.extensionSettings` (the `app` record, which no claim
touches, is omitted). -/
structure ExtensionSettings where
  telegram : TelegramSettings
  privacy : PrivacySettings
deriving DecidableEq, Repr

/-- A value of `backgroundState.activeSessions` (keyed by
`tabId_sessionId`). -/
structure ActiveSession where
  sessionData : SessionData
  tabId : Int
  detectedAt : Int
  processed : Bool
deriving DecidableEq, Repr

/-- An entry of `backgroundState.sessionHistory` as built by
`addToSessionHistory` (its `detectedAt` ISO string is modelled as the `Int`
timestamp it denotes; `processedAt` is added by `updateSessionHistory`). -/
structure HistoryEntry where
  sessionId : Option String
  userId : Option String
  username : Option String
  url : Option String
  tabId : Int
  detectedAt : Int
  processed : Bool
  processedAt : Option Int
  id : String
deriving DecidableEq, Repr

/-- An entry of `backgroundState.activityLogs` (its `data` payload object is
modelled as an opaque string blob). -/
structure ActivityLogEntry where
  id : String
  timestamp : Int
  activity : String
  data : String
deriving DecidableEq, Repr

/-- An entry of `backgroundState.errorLogs` (the `stack` field, which no
claim touches, is omitted). -/
structure ErrorLogEntry where
  id : String
  timestamp : Int
  type : String
  message : String
  extensionVersion : String
deriving DecidableEq, Repr

/-- The in-memory state of the background service worker (the fields of
`backgroundState` the claims touch). `activeSessions` is a JS `Map`
modelled as an insertion-ordered association list with unique keys. -/
structure BackgroundState where
  extensionSettings : ExtensionSettings
  activeSessions : List (String × ActiveSession)
  sessionHistory : List HistoryEntry
  activityLogs : List ActivityLogEntry
  errorLogs : List ErrorLogEntry
  errorCount : Nat
deriving DecidableEq, Repr

/-- The claim-relevant keys of `chrome.storage.local` (the Persistent
Store); a `none` in `pendingSessionData`/`consentRequestTime` models the
key being absent/removed. -/
structure StorageState where
  sessionHistory : List HistoryEntry
  activityLogs : List ActivityLogEntry
  errorLogs : List ErrorLogEntry
  pendingSessionData : Option SessionData
  consentRequestTime : Option Int
deriving DecidableEq, Repr

/-- `BACKGROUND_CONFIG.MAX_SESSION_HISTORY`. -/
def MAX_SESSION_HISTORY : Nat := 100

/-- `BACKGROUND_CONFIG.MAX_LOG_ENTRIES`. -/
def MAX_LOG_ENTRIES : Nat := 1000

/-- `BACKGROUND_CONFIG.LOG_CLEANUP_INTERVAL` (24 h in ms). -/
def LOG_CLEANUP_INTERVAL : Int := 86400000

/-- `BACKGROUND_CONFIG.EXTENSION_VERSION`. -/
def EXTENSION_VERSION : String := "2.0.0"

/-- The `length > max ? slice(0, max) : unchanged` capping pattern used by
`addToSessionHistory`, `logActivity` and `logError`. -/
def capList {α : Type} (max : Nat) (l : List α) : List α :=
  if l.length > max then l.take max else l

/-! ## Background Coordinator — operations -/

/-- `validateSessionData(sessionData)` from `background.js`: requires a
truthy `sessionId` and `extractedAt`, and a `sessionId` of length ≥ 20.
(Unlike the content script's validator there is no character-class check.) -/
def validateSessionData (sessionData : SessionData) : Bool :=
  match sessionData.sessionId, sessionData.extractedAt with
  | some sid, some ext => !sid.isEmpty && !ext.isEmpty && !decide (sid.length < 20)
  | _, _ => false

/-- `logActivity(activity, data)`: prepend a log entry, cap at
`MAX_LOG_ENTRIES`, and persist the activity log **only when**
`privacy.logActivities` is enabled. -/
def logActivity (st : BackgroundState) (store : StorageState)
    (activity data : String) (now : Int) (id : String) :
    BackgroundState × StorageState :=
  let entry : ActivityLogEntry := { id := id, timestamp := now, activity := activity, data := data }
  let logs := capList MAX_LOG_ENTRIES (entry :: st.activityLogs)
  let st1 := { st with activityLogs := logs }
  let store1 := if st.extensionSettings.privacy.logActivities then { store with activityLogs := logs } else store
  (st1, store1)

/-- `logError(errorType, error)`: prepend an error entry, cap at
`MAX_LOG_ENTRIES`, bump `errorCount`, and **always** persist the error
log. -/
def logError (st : BackgroundState) (store : StorageState)
    (errorType message : String) (now : Int) (id : String) :
    BackgroundState × StorageState :=
  let entry : ErrorLogEntry :=
    { id := id, timestamp := now, type := errorType, message := message,
      extensionVersion := EXTENSION_VERSION }
  let logs := capList MAX_LOG_ENTRIES (entry :: st.errorLogs)
  let st1 := { st with errorLogs := logs, errorCount := st.errorCount + 1 }
  let store1 := { store with errorLogs := logs }
  (st1, store1)

/-- The history entry `addToSessionHistory` builds from a detection. -/
def mkHistoryEntry (sessionData : SessionData) (tabId : Int) (now : Int)
    (id : String) : HistoryEntry :=
  { sessionId := sessionData.sessionId, userId := sessionData.userId,
    username := sessionData.username, url := sessionData.url, tabId := tabId,
    detectedAt := now, processed := false, processedAt := none, id := id }

/-- `addToSessionHistory(sessionData, tabId)`: unshift a new entry, cap the
history at `MAX_SESSION_HISTORY`, persist it. -/
def addToSessionHistory (st : BackgroundState) (store : StorageState)
    (sessionData : SessionData) (tabId : Int) (now : Int) (id : String) :
    BackgroundState × StorageState :=
  let hist := capList MAX_SESSION_HISTORY (mkHistoryEntry sessionData tabId now id :: st.sessionHistory)
  ({ st with sessionHistory := hist }, { store with sessionHistory := hist })

/-- The in-place mutation of the entry `find` locates in
`updateSessionHistory`: update the first entry whose `sessionId` matches. -/
def updateFirstHistoryEntry (sessionId : String) (status : String) (now : Int) :
    List HistoryEntry → List HistoryEntry
  | [] => []
  | e :: rest =>
    if e.sessionId = some sessionId then
      { e with processed := status = "processed", processedAt := some now } :: rest
    else
      e :: updateFirstHistoryEntry sessionId status now rest

/-- `updateSessionHistory(sessionId, status)`: mutate the first matching
entry and persist; if no entry matches, nothing changes (no storage
write). -/
def updateSessionHistory (st : BackgroundState) (store : StorageState)
    (sessionId : String) (status : String) (now : Int) :
    BackgroundState × StorageState :=
  if st.sessionHistory.any (fun e => e.sessionId = some sessionId) then
    let hist := updateFirstHistoryEntry sessionId status now st.sessionHistory
    ({ st with sessionHistory := hist }, { store with sessionHistory := hist })
  else
    (st, store)

/-- JS `Map.prototype.delete(k)` on the association-list model. -/
def mapDeleteKey (m : List (String × ActiveSession)) (k : String) :
    List (String × ActiveSession) :=
  m.filter (fun e => !(e.1 == k))

/-- `cleanupTabSessions(tabId)`: iterate over the active-session entries and
delete every one whose `tabId` matches; nothing else is touched. -/
def cleanupTabSessions (st : BackgroundState) (tabId : Int) : BackgroundState :=
  { st with
    activeSessions :=
      st.activeSessions.foldl
        (fun m e => if e.2.tabId == tabId then mapDeleteKey m e.1 else m)
        st.activeSessions }

/-- `clearSessionData(sessionId)` from `background.js`: drop active sessions
holding that credential and remove the pending-artifact keys from
storage. -/
def clearSessionDataBg (st : BackgroundState) (store : StorageState)
    (sessionId : String) : BackgroundState × StorageState :=
  ({ st with
     activeSessions :=
       st.activeSessions.filter (fun e => !(e.2.sessionData.sessionId == some sessionId)) },
   { store with pendingSessionData := none, consentRequestTime := none })

/-- `performLogCleanup()`: drop activity and error entries older than the
24-hour horizon (strictly: keep those with `timestamp > now - horizon`) and
persist both logs. -/
def performLogCleanup (st : BackgroundState) (store : StorageState)
    (now : Int) : BackgroundState × StorageState :=
  let threshold := now - LOG_CLEANUP_INTERVAL
  let acts := st.activityLogs.filter (fun e => threshold < e.timestamp)
  let errs := st.errorLogs.filter (fun e => threshold < e.timestamp)
  ({ st with activityLogs := acts, errorLogs := errs },
   { store with activityLogs := acts, errorLogs := errs })

/-! ## Background Coordinator — Telegram sink adapter and delivery handler -/

/-- The outcome of the single `fetch` to the Telegram `sendMessage`
endpoint: `ok` (API answered `ok:true` with a message id), `apiError` (API
answered `ok:false` with a `description`), or `netError` (transport
failure / rejected promise). -/
inductive TgOutcome where
  | ok (messageId : Nat)
  | apiError (description : String)
  | netError (msg : String)
deriving DecidableEq, Repr

/-- The `{success, messageId?, error?}` result objects the Telegram helpers
return and the `{success, messageId?/error?}` responses
`handleProcessSessionData` sends back. -/
structure TgSendResult where
  success : Bool
  messageId : Option Nat
  error : Option String
deriving DecidableEq, Repr

/-- `sendTelegramMessage(botToken, chatId, message)`: one `fetch`; on
`ok:false` it throws `description || 'Failed to send message'`, which its
own catch converts to a failure result. -/
def sendTelegramMessage (botToken chatId message : String)
    (outcome : TgOutcome) : TgSendResult :=
  match botToken, chatId, message, outcome with
  | _, _, _, .ok mid => { success := true, messageId := some mid, error := none }
  | _, _, _, .apiError d =>
    { success := false, messageId := none,
      error := some (jsOrS d "Failed to send message") }
  | _, _, _, .netError m => { success := false, messageId := none, error := some m }

/-- `sendToTelegram(sessionData)`: re-checks the sink configuration, formats
the message from the template, performs exactly one `sendTelegramMessage`
call, and converts a failure into a `{success:false, error}` result via its
catch.  The second component counts the `fetch` attempts made. -/
def sendToTelegram (st : BackgroundState) (locale : Option String → String)
    (sessionData : SessionData) (outcome : TgOutcome) : TgSendResult × Nat :=
  let tg := st.extensionSettings.telegram
  if !jsTruthyS tg.botToken || !jsTruthyS tg.chatId then
    ({ success := false, messageId := none, error := some "Telegram bot not configured" }, 0)
  else
    let message := formatTelegramMessage locale sessionData tg.messageTemplate
    let r := sendTelegramMessage tg.botToken tg.chatId message outcome
    if r.success then
      ({ success := true, messageId := r.messageId, error := none }, 1)
    else
      ({ success := false, messageId := none, error := r.error }, 1)

/-- What one run of the `processSessionData` handler produces: the response
sent via `sendResponse`, the `consentProcessed` notification relayed to the
originating tab (when the sender has one), the number of sink `fetch`
attempts, and the updated state and store. -/
structure ProcResult where
  response : TgSendResult
  notified : Option TgSendResult
  sends : Nat
  state : BackgroundState
  store : StorageState
deriving Repr

/-- `handleProcessSessionData(message, sender, sendResponse)`: validate,
fail fast when the sink is unconfigured, otherwise delegate to
`sendToTelegram` once; on success log/update/optionally clear, on any
thrown error log it and answer `{success:false, error}`.  Both outcomes are
also relayed to the originating tab.  (`generateUniqueId()` is the `id`
argument, shared by the log entries of the run.) -/
def handleProcessSessionData (st : BackgroundState) (store : StorageState)
    (sessionData : SessionData) (consentType : String) (senderTab : Option Int)
    (locale : Option String → String) (outcome : TgOutcome) (now : Int)
    (id : String) : ProcResult :=
  if !validateSessionData sessionData then
    let r : TgSendResult := { success := false, messageId := none, error := some "Invalid session data" }
    let (st1, store1) := logError st store "session_processing_error" "Invalid session data" now id
    { response := r, notified := senderTab.map (fun _ => r), sends := 0, state := st1, store := store1 }
  else if !jsTruthyS st.extensionSettings.telegram.botToken
       || !jsTruthyS st.extensionSettings.telegram.chatId then
    let r : TgSendResult := { success := false, messageId := none, error := some "Telegram bot not configured" }
    let (st1, store1) := logError st store "session_processing_error" "Telegram bot not configured" now id
    { response := r, notified := senderTab.map (fun _ => r), sends := 0, state := st1, store := store1 }
  else
    let (result, sends) := sendToTelegram st locale sessionData outcome
    if result.success then
      let sid := (sessionData.sessionId).getD ""
      let (st1, store1) := logActivity st store "session_processed" consentType now id
      let (st2, store2) := updateSessionHistory st1 store1 sid "processed" now
      let (st3, store3) :=
        if st.extensionSettings.privacy.autoClearData then clearSessionDataBg st2 store2 sid
        else (st2, store2)
      let r : TgSendResult := { success := true, messageId := result.messageId, error := none }
      { response := r, notified := senderTab.map (fun _ => r), sends := sends, state := st3, store := store3 }
    else
      let msg := jsOrS ((result.error).getD "") "Failed to send to Telegram"
      let r : TgSendResult := { success := false, messageId := none, error := some msg }
      let (st1, store1) := logError st store "session_processing_error" msg now id
      { response := r, notified := senderTab.map (fun _ => r), sends := sends, state := st1, store := store1 }

/-! ## Detector (content script, part_001) -/

/-- `CONTENT_CONFIG.CONSENT_COOLDOWN_DURATION` (5 min in ms). -/
def CONSENT_COOLDOWN_DURATION : Int := 300000

/-- `CONTENT_CONFIG.SESSION_REMEMBER_DURATION` (1 h in ms). -/
def SESSION_REMEMBER_DURATION : Int := 3600000

/-- `contentState.userChoice` as written by `handleConsentProcessed`:
`{ consent, timestamp, sessionId }` (the credential the decision was made
for). -/
structure UserChoice where
  consent : String
  timestamp : Int
  sessionId : Option String
deriving DecidableEq, Repr

/-- The Telegram part of the settings the content script reads (fields may
be absent in storage: absent is modelled as `""`, which is equally
falsy). -/
structure ContentTelegram where
  botToken : String
  chatId : String
deriving DecidableEq, Repr

/-- The privacy part of the settings the content script reads;
`requireConfirmation` is compared with `=== false`, so the absent case
(`none`) must stay distinguishable. -/
structure ContentPrivacy where
  requireConfirmation : Option Bool
  autoClearData : Option Bool
deriving DecidableEq, Repr

/-- `contentState.extensionSettings` after `loadExtensionSettings`. -/
structure ContentSettings where
  telegram : ContentTelegram
  privacy : ContentPrivacy
deriving DecidableEq, Repr

/-- The claim-relevant fields of `contentState`. `extensionSettings` is
`none` until `loadExtensionSettings` succeeds. -/
structure ContentState where
  sessionDetected : Bool
  sessionData : Option SessionData
  checkAttempts : Nat
  consentRequested : Bool
  lastConsentRequest : Int
  userChoice : Option UserChoice
  extensionSettings : Option ContentSettings
  isProcessing : Bool
deriving DecidableEq, Repr

/-- `shouldRequestConsent()`: settings loaded, sink configured,
`requireConfirmation` not explicitly `false`, not already processing, not
already requested. -/
def shouldRequestConsent (s : ContentState) : Bool :=
  match s.extensionSettings with
  | none => false
  | some es =>
    if !jsTruthyS es.telegram.botToken || !jsTruthyS es.telegram.chatId then false
    else if es.privacy.requireConfirmation = some false then false
    else if s.isProcessing then false
    else if s.consentRequested then false
    else true

/-- What `evaluateConsentRequest()` decides to do with a freshly validated
detection: nothing (`suppressed`), silent delivery under a remembered grant
(`autoDeliver`, i.e. `processAutomaticConsent()`), or opening the Consent
Surface (`prompt`, i.e. `requestUserConsent()`). -/
inductive ConsentEvalResult where
  | suppressed
  | autoDeliver
  | prompt
deriving DecidableEq, Repr

/-- `evaluateConsentRequest()` from the content script: gate on
`shouldRequestConsent`, then the cooldown window, then the remembered
choice (whose age alone is inspected — the stored `sessionId` is never
compared), finally fall through to a fresh prompt. -/
def evaluateConsentRequest (s : ContentState) (now : Int) : ConsentEvalResult :=
  if !shouldRequestConsent s then .suppressed
  else if now - s.lastConsentRequest < CONSENT_COOLDOWN_DURATION then .suppressed
  else
    match s.userChoice with
    | some uc =>
      if uc.timestamp != 0 then
        if now - uc.timestamp < SESSION_REMEMBER_DURATION then
          if uc.consent = "granted" then .autoDeliver else .suppressed
        else .prompt
      else .prompt
    | none => .prompt

/-- The claim-relevant keys of the content script's slice of
`chrome.storage.local`. -/
structure ContentStorage where
  pendingSessionData : Option SessionData
  consentRequestTime : Option Int
deriving DecidableEq, Repr

/-- `clearSessionData()` from the content script: reset the four detection /
consent fields and remove the pending keys from storage.  It is a plain
total assignment sequence (no failure path). -/
def clearSessionDataContent (p : ContentState × ContentStorage) :
    ContentState × ContentStorage :=
  ({ p.1 with
      sessionData := none
      sessionDetected := false
      consentRequested := false
      userChoice := none },
   { p.2 with
      pendingSessionData := none
      consentRequestTime := none })

/-- `handleConsentProcessed(data)`: on success remember a granted choice for
the currently held credential (and optionally clear), on failure only reset
the in-flight flags. -/
def handleConsentProcessed (p : ContentState × ContentStorage)
    (success : Bool) (now : Int) : ContentState × ContentStorage :=
  let s := p.1
  if success then
    let s1 := { s with
      userChoice := some
        { consent := "granted", timestamp := now,
          sessionId := s.sessionData.bind SessionData.sessionId } }
    let p1 :=
      if (s.extensionSettings.bind (fun es => es.privacy.autoClearData)).getD false then
        clearSessionDataContent (s1, p.2)
      else (s1, p.2)
    ({ p1.1 with isProcessing := false, consentRequested := false }, p1.2)
  else
    ({ s with isProcessing := false, consentRequested := false }, p.2)

/-! ## Consent Surface (consent page, part_003) -/

/-- The page environment `extractInstagramSessionData()` reads, one field
per extraction layer: the parsed cookie pairs, `window._sharedData.config
.viewerId`, the first `"viewerId":"…"` and `"username":"…"` regex matches
over the page's script bodies, the `^/([^/]+)/?$` pathname capture, the
trimmed `^@([^•]+)` capture of the `og:title` meta tag, and
`window.location.href`.  Regex captures are non-empty by construction. -/
structure PageEnv where
  cookies : List (String × String)
  sharedDataViewerId : Option String
  scriptUserId : Option String
  scriptUsername : Option String
  pathSegment : Option String
  metaTitleHandle : Option String
  href : String
deriving DecidableEq, Repr

/-- The cookie loop of `extractInstagramSessionData`: the value of the first
`sessionid` pair. -/
def lookupCookie (cookies : List (String × String)) (name : String) :
    Option String :=
  (cookies.find? (fun c => c.1 = name)).map Prod.snd

/-- `extractInstagramSessionData()` from the consent page: session id from
the `sessionid` cookie, then the fill-only-if-absent identity layers
(`_sharedData` viewer id, script regexes, path segment unless it is
`explore`/`reels`, and the `og:title` handle, which overwrites a
path-derived name).  Returns `null` (here `none`) when no truthy session id
was found. -/
def extractInstagramSessionData (page : PageEnv) (nowIso : String) :
    Option SessionData :=
  let sid := lookupCookie page.cookies "sessionid"
  let uid0 := if jsTruthy page.sharedDataViewerId then page.sharedDataViewerId else none
  let uid := match uid0 with
    | some v => some v
    | none => page.scriptUserId
  let uname := match page.scriptUsername with
    | some v => some v
    | none =>
      let fromPath := match page.pathSegment with
        | some seg => if seg ≠ "explore" ∧ seg ≠ "reels" then some seg else none
        | none => none
      match page.metaTitleHandle with
      | some m => some m
      | none => fromPath
  if jsTruthy sid then
    some { sessionId := sid, userId := uid, username := uname,
           extractedAt := some nowIso, url := some page.href }
  else
    none

/-- The Telegram part of the settings the consent page loads from storage. -/
structure ConsentTelegramSettings where
  botToken : String
  chatId : String
  messageTemplate : String
deriving DecidableEq, Repr

/-- The claim-relevant fields of the consent page's `appState`.
`sessionData` holds the preview extraction made on page load. -/
structure ConsentAppState where
  sessionData : Option SessionData
  telegramSettings : ConsentTelegramSettings
  privacyAutoClearData : Bool
  consentGiven : Bool
  isProcessing : Bool
  rememberChoice : Bool
  currentStep : String
deriving DecidableEq, Repr

/-- `sendDataToTelegram(sessionData)` from the consent page: throws when the
sink is unconfigured (no fetch), otherwise formats the message from the
template and performs exactly one fetch, throwing the API's `description ||
'Failed to send message to Telegram'` on `ok:false`.  Returns the error
message (if any) together with the payload handed to the fetch. -/
def sendDataToTelegram (tg : ConsentTelegramSettings)
    (locale : Option String → String) (pageHref : String)
    (sessionData : SessionData) (outcome : TgOutcome) :
    Option String × Option SessionData :=
  if !jsTruthyS tg.botToken || !jsTruthyS tg.chatId then
    (some "Telegram bot not configured", none)
  else
    let _message := formatTelegramMessageConsent locale pageHref sessionData tg.messageTemplate
    match outcome with
    | .ok _ => (none, some sessionData)
    | .apiError d => (some (jsOrS d "Failed to send message to Telegram"), some sessionData)
    | .netError m => (some m, some sessionData)

/-- What one run of `handleConsentAction()` produces: the state after the
run, the artifact handed to the sink fetch (if any fetch happened), and
whether the local pending data was cleared. -/
structure ConsentRunResult where
  state : ConsentAppState
  sentPayload : Option SessionData
  cleared : Bool
deriving DecidableEq, Repr

/-- `handleConsentAction()` from the consent page: re-entrancy guard, then a
**fresh** `extractInstagramSessionData()` whose result — never the preview
in `appState.sessionData` — is handed to `sendDataToTelegram`; a `null`
extraction throws `'Failed to extract session data'` before any send, and
every thrown error lands in the error step. -/
def handleConsentAction (st : ConsentAppState) (page : PageEnv)
    (nowIso : String) (locale : Option String → String)
    (outcome : TgOutcome) : ConsentRunResult :=
  if st.isProcessing then
    { state := st, sentPayload := none, cleared := false }
  else
    match extractInstagramSessionData page nowIso with
    | none =>
      { state := { st with currentStep := "error", isProcessing := false },
        sentPayload := none, cleared := false }
    | some sessionData =>
      match sendDataToTelegram st.telegramSettings locale page.href sessionData outcome with
      | (some _err, payload) =>
        { state := { st with currentStep := "error", isProcessing := false },
          sentPayload := payload, cleared := false }
      | (none, payload) =>
        { state := { st with currentStep := "completed", isProcessing := false },
          sentPayload := payload, cleared := st.privacyAutoClearData }

/-! ## Helper lemmas -/

/-- The `length > max ? slice(0,max) : unchanged` pattern is exactly
`List.take`. -/
theorem capList_eq_take {α : Type} (max : Nat) (l : List α) :
    capList max l = l.take max := by
  unfold capList
  by_cases h : l.length > max
  · simp [h]
  · simp only [h, if_false]
    exact (List.take_of_length_le (by omega)).symm

/-! ## C9 — idempotent cleanup -/

/-- C9: the Detector's `clearSessionData()` is idempotent (and, being a
plain assignment sequence, total): running it twice from any state and
storage yields exactly the state and storage of running it once. -/
theorem clearSessionData_idempotent (p : ContentState × ContentStorage) :
    clearSessionDataContent (clearSessionDataContent p) =
      clearSessionDataContent p := rfl

/-! ## C6 — bounded, newest-first session history -/

/-- C6: one `addToSessionHistory` call leaves the history equal to the new
entry consed onto the old history and truncated to `MAX_SESSION_HISTORY`;
hence it holds at most 100 entries, the fresh entry sits at index 0, all
surviving older entries keep their order, and the persisted copy matches. -/
theorem addToSessionHistory_spec (st : BackgroundState) (store : StorageState)
    (sessionData : SessionData) (tabId : Int) (now : Int) (id : String) :
    (addToSessionHistory st store sessionData tabId now id).1.sessionHistory
        = (mkHistoryEntry sessionData tabId now id :: st.sessionHistory).take MAX_SESSION_HISTORY
    ∧ (addToSessionHistory st store sessionData tabId now id).2.sessionHistory
        = (addToSessionHistory st store sessionData tabId now id).1.sessionHistory
    ∧ (addToSessionHistory st store sessionData tabId now id).1.sessionHistory.length
        ≤ MAX_SESSION_HISTORY
    ∧ (addToSessionHistory st store sessionData tabId now id).1.sessionHistory.head?
        = some (mkHistoryEntry sessionData tabId now id) := by
  have hcap := capList_eq_take MAX_SESSION_HISTORY
      (mkHistoryEntry sessionData tabId now id :: st.sessionHistory)
  refine ⟨?_, rfl, ?_, ?_⟩
  · exact hcap
  · show (capList _ _).length ≤ _
    rw [hcap, List.length_take]
    exact Nat.min_le_left _ _
  · show (capList _ _).head? = _
    rw [hcap]
    rw [show MAX_SESSION_HISTORY = 99 + 1 from rfl, List.take_succ_cons]
    rfl

/-! ## C7 — log persistence asymmetry -/

/-- C7: `logError` always writes the (capped) error log to the store — and
touches nothing else there — while `logActivity` writes the activity log to
the store exactly when `privacy.logActivities` is enabled, leaving the
store completely untouched otherwise. -/
theorem log_persistence_spec (st : BackgroundState) (store : StorageState)
    (activity data errorType message : String) (now : Int) (id : String) :
    (logError st store errorType message now id).2
        = { store with errorLogs := (logError st store errorType message now id).1.errorLogs }
    ∧ (logActivity st store activity data now id).2
        = (if st.extensionSettings.privacy.logActivities then
            { store with activityLogs := (logActivity st store activity data now id).1.activityLogs }
          else store) := by
  constructor
  · rfl
  · by_cases h : st.extensionSettings.privacy.logActivities <;>
      simp [logActivity, h]

/-! ## C8 — the log sweep is a pure age filter -/

/-- The state of the C8 counterexample: a single activity-log entry written
at time 0, i.e. well within the 1000-entry cap but older than the 24 h
horizon at the sweep time used below. -/
def c8state : BackgroundState :=
  { extensionSettings :=
      { telegram := { botToken := "123456:ABC", chatId := "99", messageTemplate := "" },
        privacy :=
          { autoClearData := true, clearOnClose := false, showNotifications := true,
            consentReminders := true, requireConfirmation := true, logActivities := true } },
    activeSessions := [], sessionHistory := [],
    activityLogs := [{ id := "a1", timestamp := 0, activity := "session_detected", data := "" }],
    errorLogs := [], errorCount := 0 }

/-- The storage of the C8 counterexample. -/
def c8store : StorageState :=
  { sessionHistory := [],
    activityLogs := [{ id := "a1", timestamp := 0, activity := "session_detected", data := "" }],
    errorLogs := [], pendingSessionData := none, consentRequestTime := none }

/-- C8 counterexample: with a single (hence trivially within-cap, most
recent) activity entry that is older than the 24-hour horizon, the sweep
deletes it — so the sweep does **not** "always keep the most recent entries
up to the cap regardless of their age". -/
theorem performLogCleanup_counterexample :
    c8state.activityLogs.length = 1
    ∧ MAX_LOG_ENTRIES = 1000
    ∧ (performLogCleanup c8state c8store 200000000).1.activityLogs = []
    ∧ (performLogCleanup c8state c8store 200000000).2.activityLogs = [] := by
  decide

/-- C8 amended: the sweep keeps exactly the activity/error entries strictly
younger than the 24-hour horizon — entries within the cap are *not*
protected from deletion (the cap is enforced at insertion time by
`logActivity`/`logError`, not by the sweep) — persists both filtered logs,
and touches nothing else in the state or store. -/
theorem performLogCleanup_spec (st : BackgroundState) (store : StorageState)
    (now : Int) :
    (∀ e, e ∈ (performLogCleanup st store now).1.activityLogs ↔
        e ∈ st.activityLogs ∧ now - LOG_CLEANUP_INTERVAL < e.timestamp)
    ∧ (∀ e, e ∈ (performLogCleanup st store now).1.errorLogs ↔
        e ∈ st.errorLogs ∧ now - LOG_CLEANUP_INTERVAL < e.timestamp)
    ∧ (performLogCleanup st store now).2.activityLogs
        = (performLogCleanup st store now).1.activityLogs
    ∧ (performLogCleanup st store now).2.errorLogs
        = (performLogCleanup st store now).1.errorLogs
    ∧ (performLogCleanup st store now).1.sessionHistory = st.sessionHistory
    ∧ (performLogCleanup st store now).1.activeSessions = st.activeSessions
    ∧ (performLogCleanup st store now).2.sessionHistory = store.sessionHistory
    ∧ (performLogCleanup st store now).2.pendingSessionData = store.pendingSessionData
    ∧ (performLogCleanup st store now).2.consentRequestTime = store.consentRequestTime := by
  refine ⟨?_, ?_, rfl, rfl, rfl, rfl, rfl, rfl, rfl⟩ <;>
    · intro e
      simp [performLogCleanup, List.mem_filter]

/-! ## C10 — tab cleanup removes exactly that tab's sessions -/

/-- The delete-while-iterating loop of `cleanupTabSessions`, characterised:
an entry survives the fold iff it was in the accumulator and its key is not
the key of any to-be-deleted (matching-tab) entry of the iterated list. -/
theorem foldDelete_mem (tabId : Int) (l : List (String × ActiveSession)) :
    ∀ (acc : List (String × ActiveSession)) (a : String × ActiveSession),
      a ∈ l.foldl (fun m e => if e.2.tabId == tabId then mapDeleteKey m e.1 else m) acc
      ↔ a ∈ acc ∧ ∀ e ∈ l, e.2.tabId = tabId → ¬ a.1 = e.1 := by
  induction l with
  | nil => intro acc a; simp
  | cons e l ih =>
    intro acc a
    rw [List.foldl_cons, ih]
    by_cases he : e.2.tabId = tabId
    · have hcond : (e.2.tabId == tabId) = true := by simp [he]
      simp [hcond, mapDeleteKey, List.mem_filter, List.forall_mem_cons, he]
      tauto
    · have hcond : (e.2.tabId == tabId) = false := by simp [he]
      simp [hcond, List.forall_mem_cons, he]

/-- C10: `cleanupTabSessions(tabId)` removes from the active-sessions map
exactly the entries whose `tabId` matches (given the `Map` invariant that
keys are unique), and leaves the session history, both logs, the settings
and the error counter untouched (it never writes the store at all). -/
theorem cleanupTabSessions_spec (st : BackgroundState) (tabId : Int)
    (hkeys : (st.activeSessions.map Prod.fst).Nodup) :
    (∀ a, a ∈ (cleanupTabSessions st tabId).activeSessions ↔
        a ∈ st.activeSessions ∧ ¬ a.2.tabId = tabId)
    ∧ (cleanupTabSessions st tabId).sessionHistory = st.sessionHistory
    ∧ (cleanupTabSessions st tabId).activityLogs = st.activityLogs
    ∧ (cleanupTabSessions st tabId).errorLogs = st.errorLogs
    ∧ (cleanupTabSessions st tabId).extensionSettings = st.extensionSettings
    ∧ (cleanupTabSessions st tabId).errorCount = st.errorCount := by
  refine ⟨?_, rfl, rfl, rfl, rfl, rfl⟩
  intro a
  show a ∈ st.activeSessions.foldl _ st.activeSessions ↔ _
  rw [foldDelete_mem]
  constructor
  · rintro ⟨ha, hall⟩
    refine ⟨ha, fun ht => ?_⟩
    exact hall a ha ht rfl
  · rintro ⟨ha, hne⟩
    refine ⟨ha, fun e he het heq => ?_⟩
    have : a = e := List.inj_on_of_nodup_map hkeys ha he heq
    exact hne (this ▸ het)

/-- The tab-7 active-session entry of the C10 witness state. -/
def c10entry7 : String × ActiveSession :=
  ("7_s1",
   { sessionData :=
       { sessionId := some "abcdefghij1234567890", userId := none, username := none,
         extractedAt := some "2025-01-01T00:00:00.000Z", url := none },
     tabId := 7, detectedAt := 0, processed := false })

/-- The tab-8 active-session entry of the C10 witness state. -/
def c10entry8 : String × ActiveSession :=
  ("8_s2",
   { sessionData :=
       { sessionId := some "zyxwvutsrq0987654321", userId := none, username := none,
         extractedAt := some "2025-01-01T00:00:00.000Z", url := none },
     tabId := 8, detectedAt := 0, processed := false })

/-- A concrete two-tab Coordinator state for the C10 witness. -/
def c10state : BackgroundState :=
  { extensionSettings :=
      { telegram := { botToken := "123456:ABC", chatId := "99", messageTemplate := "" },
        privacy :=
          { autoClearData := true, clearOnClose := false, showNotifications := true,
            consentReminders := true, requireConfirmation := true, logActivities := false } },
    activeSessions := [c10entry7, c10entry8],
    sessionHistory := [], activityLogs := [], errorLogs := [], errorCount := 0 }

/-- C10 witness: in a concrete two-tab state with distinct keys, cleaning up
tab 7 removes its entry and keeps tab 8's. -/
theorem cleanupTabSessions_spec_witness :
    (c10entry7 ∈ c10state.activeSessions ∧ c10entry7.2.tabId = 7)
    ∧ ¬ c10entry7 ∈ (cleanupTabSessions c10state 7).activeSessions
    ∧ c10entry8 ∈ (cleanupTabSessions c10state 7).activeSessions := by
  have h := cleanupTabSessions_spec c10state 7 (by decide)
  refine ⟨⟨by decide, by decide⟩, fun hmem => ?_, ?_⟩
  · exact ((h.1 _).mp hmem).2 (by decide)
  · exact (h.1 _).mpr ⟨by decide, by decide⟩

/-! ## C3 — remembered grants are not scoped to the credential -/

/-- The C3 counterexample state: the sink is configured, no cooldown is
active, a grant for credential `SESSAAAAAAAAAAAAAAAAAAAA` was remembered
1 000 000 ms ago (within the 1 h remember window), and the freshly detected
artifact carries the *different* credential `SESSBBBBBBBBBBBBBBBBBBBB`. -/
def c3state : ContentState :=
  { sessionDetected := true,
    sessionData := some
      { sessionId := some "SESSBBBBBBBBBBBBBBBBBBBB", userId := some "42",
        username := some "other_account",
        extractedAt := some "2025-01-01T00:16:40.000Z",
        url := some "https://www.instagram.com/" },
    checkAttempts := 1,
    consentRequested := false,
    lastConsentRequest := 0,
    userChoice := some
      { consent := "granted", timestamp := 999000000,
        sessionId := some "SESSAAAAAAAAAAAAAAAAAAAA" },
    extensionSettings := some
      { telegram := { botToken := "123456:ABC", chatId := "99" },
        privacy := { requireConfirmation := some true, autoClearData := some false } },
    isProcessing := false }

/-- C3 counterexample: at time 1 000 000 000 the Detector auto-delivers the
newly detected artifact although the remembered grant was recorded for a
different credential — `evaluateConsentRequest` never compares the stored
`sessionId` with the detected one, contradicting the claim that a
different credential always triggers a fresh prompt. -/
theorem evaluateConsent_counterexample :
    evaluateConsentRequest c3state 1000000000 = ConsentEvalResult.autoDeliver
    ∧ c3state.userChoice.map UserChoice.sessionId
        = some (some "SESSAAAAAAAAAAAAAAAAAAAA")
    ∧ c3state.sessionData.map SessionData.sessionId
        = some (some "SESSBBBBBBBBBBBBBBBBBBBB")
    ∧ ("SESSAAAAAAAAAAAAAAAAAAAA" : String) ≠ "SESSBBBBBBBBBBBBBBBBBBBB" := by
  decide

/-- C3 amended: once the gate conditions pass (configured, confirmation
required, not busy, no pending request, out of cooldown), auto-delivery
happens **iff** a remembered choice exists that is `granted`, has a truthy
timestamp and is younger than the remember window — the credential recorded
in the choice and the detected credential play no role at all, as the
second conjunct (invariance under replacing the detected artifact) makes
explicit. -/
theorem evaluateConsent_remember_ignores_credential (s : ContentState)
    (now : Int) (h1 : shouldRequestConsent s = true)
    (h2 : ¬ now - s.lastConsentRequest < CONSENT_COOLDOWN_DURATION) :
    (evaluateConsentRequest s now = ConsentEvalResult.autoDeliver ↔
      ∃ uc, s.userChoice = some uc ∧ uc.timestamp ≠ 0
        ∧ now - uc.timestamp < SESSION_REMEMBER_DURATION
        ∧ uc.consent = "granted")
    ∧ ∀ sd, evaluateConsentRequest { s with sessionData := sd } now
        = evaluateConsentRequest s now := by
  constructor
  · unfold evaluateConsentRequest
    rw [h1]
    simp only [Bool.not_true, Bool.false_eq_true, if_false, h2, if_false]
    cases huc : s.userChoice with
    | none => simp
    | some uc =>
      by_cases ht : uc.timestamp = 0
      · simp [ht]
      · have ht2 : (uc.timestamp != 0) = true := by simp [ht]
        simp only [ht2, if_true]
        by_cases hage : now - uc.timestamp < SESSION_REMEMBER_DURATION
        · by_cases hg : uc.consent = "granted"
          · simp [hage, hg, ht]
          · simp [hage, hg]
        · simp [hage]
  · intro sd
    rfl

/-- C3 witness for the amended theorem: on the concrete counterexample
state the characterisation indeed yields auto-delivery. -/
theorem evaluateConsent_remember_witness :
    evaluateConsentRequest c3state 1000000000 = ConsentEvalResult.autoDeliver := by
  have h := evaluateConsent_remember_ignores_credential c3state 1000000000
    (by decide) (by decide)
  exact h.1.mpr ⟨_, rfl, by decide, by decide, rfl⟩

/-! ## C2 — freshness of the delivered artifact -/

/-- C2: when the user approves, the artifact handed to the sink fetch is
exactly the one returned by the at-approval `extractInstagramSessionData()`
call; if that extraction fails the run ends in the error step with no send;
and the preview artifact held in `appState.sessionData` has no influence on
what is sent. -/
theorem handleConsentAction_freshness (st : ConsentAppState) (page : PageEnv)
    (nowIso : String) (locale : Option String → String) (outcome : TgOutcome)
    (h : st.isProcessing = false) :
    (∀ d, (handleConsentAction st page nowIso locale outcome).sentPayload = some d →
        extractInstagramSessionData page nowIso = some d)
    ∧ (extractInstagramSessionData page nowIso = none →
        (handleConsentAction st page nowIso locale outcome).sentPayload = none
        ∧ (handleConsentAction st page nowIso locale outcome).state.currentStep = "error")
    ∧ (∀ preview,
        (handleConsentAction { st with sessionData := preview } page nowIso locale outcome).sentPayload
          = (handleConsentAction st page nowIso locale outcome).sentPayload) := by
  refine ⟨?_, ?_, ?_⟩
  · intro d
    cases hext : extractInstagramSessionData page nowIso with
    | none => simp [handleConsentAction, h, hext]
    | some sd =>
      by_cases hcfg : (!jsTruthyS st.telegramSettings.botToken
          || !jsTruthyS st.telegramSettings.chatId) = true <;>
        cases outcome <;>
          simp_all [handleConsentAction, sendDataToTelegram]
  · intro hext
    simp [handleConsentAction, h, hext]
  · intro preview
    cases hext : extractInstagramSessionData page nowIso with
    | none => simp [handleConsentAction, h, hext]
    | some sd =>
      by_cases hcfg : (!jsTruthyS st.telegramSettings.botToken
          || !jsTruthyS st.telegramSettings.chatId) = true <;>
        cases outcome <;>
          simp [handleConsentAction, sendDataToTelegram, h, hext, hcfg]

/-- A consent-page state for the C2 witness: idle, sink configured,
holding a (stale) preview artifact. -/
def c2st : ConsentAppState :=
  { sessionData := some
      { sessionId := some "OLDPREVIEW1234567890", userId := some "1",
        username := some "old", extractedAt := some "2025-01-01T00:00:00.000Z",
        url := some "https://www.instagram.com/" },
    telegramSettings := { botToken := "123456:ABC", chatId := "99", messageTemplate := "" },
    privacyAutoClearData := true, consentGiven := false, isProcessing := false,
    rememberChoice := false, currentStep := "configured" }

/-- A page environment with no `sessionid` cookie: the at-approval
extraction fails. -/
def c2pageNone : PageEnv :=
  { cookies := [("csrftoken", "x")], sharedDataViewerId := none,
    scriptUserId := none, scriptUsername := none, pathSegment := none,
    metaTitleHandle := none, href := "https://www.instagram.com/" }

/-- C2 witness: on the concrete state whose at-approval extraction fails,
the run sends nothing and ends in the error step. -/
theorem handleConsentAction_freshness_witness :
    (handleConsentAction c2st c2pageNone "2025-01-01T00:30:00.000Z"
        (fun _ => "1/1/2025, 12:30:00 AM") (TgOutcome.ok 5)).sentPayload = none
    ∧ (handleConsentAction c2st c2pageNone "2025-01-01T00:30:00.000Z"
        (fun _ => "1/1/2025, 12:30:00 AM") (TgOutcome.ok 5)).state.currentStep = "error" := by
  have h := handleConsentAction_freshness c2st c2pageNone "2025-01-01T00:30:00.000Z"
    (fun _ => "1/1/2025, 12:30:00 AM") (TgOutcome.ok 5) rfl
  exact h.2.1 rfl

/-! ## C1 — at most one sink send per delivery request, no auto-retry -/

/-- C1: one `processSessionData` message causes at most one sink `fetch`;
the handler's answer is relayed verbatim to the originating tab when there
is one; and whenever the single fetch comes back failed (API rejection or
transport failure), the handler answers `{success:false, error}` — the run
performs no further send attempt (the retry constants in
`BACKGROUND_CONFIG` are never consulted). -/
theorem processSessionData_at_most_one_send (st : BackgroundState)
    (store : StorageState) (sessionData : SessionData) (consentType : String)
    (senderTab : Option Int) (locale : Option String → String)
    (outcome : TgOutcome) (now : Int) (id : String) :
    (handleProcessSessionData st store sessionData consentType senderTab locale outcome now id).sends ≤ 1
    ∧ (handleProcessSessionData st store sessionData consentType senderTab locale outcome now id).notified
        = senderTab.map (fun _ =>
            (handleProcessSessionData st store sessionData consentType senderTab locale outcome now id).response)
    ∧ ∀ d, (outcome = TgOutcome.apiError d ∨ outcome = TgOutcome.netError d) →
        (handleProcessSessionData st store sessionData consentType senderTab locale outcome now id).response.success = false
        ∧ ((handleProcessSessionData st store sessionData consentType senderTab locale outcome now id).response.error).isSome = true := by
  by_cases hv : validateSessionData sessionData = true
  · by_cases hcfg : (!jsTruthyS st.extensionSettings.telegram.botToken
        || !jsTruthyS st.extensionSettings.telegram.chatId) = true
    · refine ⟨?_, ?_, ?_⟩ <;>
        simp [handleProcessSessionData, hv, hcfg, logError]
    · refine ⟨?_, ?_, ?_⟩ <;>
        cases outcome <;>
          simp [handleProcessSessionData, hv, hcfg, sendToTelegram,
            sendTelegramMessage, logError, logActivity, jsOrS]
  · refine ⟨?_, ?_, ?_⟩ <;>
      simp [handleProcessSessionData, hv, logError]

/-- A configured Coordinator state for the C1/C4 witnesses. -/
def c1state : BackgroundState :=
  { extensionSettings :=
      { telegram := { botToken := "123456:ABC", chatId := "99", messageTemplate := "" },
        privacy :=
          { autoClearData := true, clearOnClose := false, showNotifications := true,
            consentReminders := true, requireConfirmation := true, logActivities := false } },
    activeSessions := [], sessionHistory := [], activityLogs := [], errorLogs := [],
    errorCount := 0 }

/-- An empty store for the C1/C4 witnesses. -/
def c1store : StorageState :=
  { sessionHistory := [], activityLogs := [], errorLogs := [],
    pendingSessionData := none, consentRequestTime := none }

/-- A valid artifact for the C1/C4 witnesses. -/
def c1sd : SessionData :=
  { sessionId := some "abcdefghij1234567890", userId := some "42",
    username := some "alice", extractedAt := some "2025-01-01T00:00:00.000Z",
    url := some "https://www.instagram.com/" }

/-- C1 witness: a concrete failed delivery performs at most one send and is
answered with a failure response. -/
theorem processSessionData_at_most_one_send_witness :
    (handleProcessSessionData c1state c1store c1sd "manual" (some 3)
        (fun _ => "1/1/2025, 12:00:00 AM") (TgOutcome.netError "network down") 0 "id1").sends ≤ 1
    ∧ (handleProcessSessionData c1state c1store c1sd "manual" (some 3)
        (fun _ => "1/1/2025, 12:00:00 AM") (TgOutcome.netError "network down") 0 "id1").response.success = false
    ∧ ((handleProcessSessionData c1state c1store c1sd "manual" (some 3)
        (fun _ => "1/1/2025, 12:00:00 AM") (TgOutcome.netError "network down") 0 "id1").response.error).isSome = true := by
  have h := processSessionData_at_most_one_send c1state c1store c1sd "manual"
    (some 3) (fun _ => "1/1/2025, 12:00:00 AM") (TgOutcome.netError "network down") 0 "id1"
  exact ⟨h.1, (h.2.2 "network down" (Or.inr rfl)).1, (h.2.2 "network down" (Or.inr rfl)).2⟩

/-! ## C4 — unconfigured sink fails fast with no network call -/

/-- C4: when the sink is unconfigured (falsy bot token or chat id), the
`processSessionData` handler makes zero sink fetches and answers
`{success:false, error}`; for a request that passes validation the error is
precisely the not-configured message. -/
theorem processSessionData_not_configured (st : BackgroundState)
    (store : StorageState) (sessionData : SessionData) (consentType : String)
    (senderTab : Option Int) (locale : Option String → String)
    (outcome : TgOutcome) (now : Int) (id : String)
    (hcfg : jsTruthyS st.extensionSettings.telegram.botToken = false
        ∨ jsTruthyS st.extensionSettings.telegram.chatId = false) :
    (handleProcessSessionData st store sessionData consentType senderTab locale outcome now id).sends = 0
    ∧ (handleProcessSessionData st store sessionData consentType senderTab locale outcome now id).response.success = false
    ∧ (validateSessionData sessionData = true →
        (handleProcessSessionData st store sessionData consentType senderTab locale outcome now id).response.error
          = some "Telegram bot not configured") := by
  have hcfg2 : (!jsTruthyS st.extensionSettings.telegram.botToken
      || !jsTruthyS st.extensionSettings.telegram.chatId) = true := by
    rcases hcfg with h | h <;> simp [h]
  by_cases hv : validateSessionData sessionData = true
  · refine ⟨?_, ?_, fun _ => ?_⟩ <;>
      simp [handleProcessSessionData, hv, hcfg2, logError]
  · refine ⟨?_, ?_, fun hv2 => absurd hv2 hv⟩ <;>
      simp [handleProcessSessionData, hv, logError]

/-- An unconfigured Coordinator state (empty bot token) for the C4
witness. -/
def c4state : BackgroundState :=
  { extensionSettings :=
      { telegram := { botToken := "", chatId := "99", messageTemplate := "" },
        privacy :=
          { autoClearData := true, clearOnClose := false, showNotifications := true,
            consentReminders := true, requireConfirmation := true, logActivities := false } },
    activeSessions := [], sessionHistory := [], activityLogs := [], errorLogs := [],
    errorCount := 0 }

/-- C4 witness: with an empty bot token a valid request yields zero fetches
and the not-configured failure. -/
theorem processSessionData_not_configured_witness :
    (handleProcessSessionData c4state c1store c1sd "manual" (some 3)
        (fun _ => "1/1/2025, 12:00:00 AM") (TgOutcome.ok 7) 0 "id1").sends = 0
    ∧ (handleProcessSessionData c4state c1store c1sd "manual" (some 3)
        (fun _ => "1/1/2025, 12:00:00 AM") (TgOutcome.ok 7) 0 "id1").response.success = false
    ∧ (handleProcessSessionData c4state c1store c1sd "manual" (some 3)
        (fun _ => "1/1/2025, 12:00:00 AM") (TgOutcome.ok 7) 0 "id1").response.error
        = some "Telegram bot not configured" := by
  have h := processSessionData_not_configured c4state c1store c1sd "manual"
    (some 3) (fun _ => "1/1/2025, 12:00:00 AM") (TgOutcome.ok 7) 0 "id1"
    (Or.inl (by decide))
  exact ⟨h.1, h.2.1, h.2.2 (by decide)⟩

/-! ## C5 — template totality: substitution lemmas -/

/-- A pattern matches at the head of itself followed by anything. -/
theorem patHead_same (p s : List Char) : patHead p (p ++ s) = true := by
  induction p with
  | nil => rfl
  | cons c cs ih => simp [patHead, ih]

/-- On a `$`-free replacement string the JS `$`-expansion is the
identity, whatever text surrounds the match. -/
theorem expandDollar_no_dollar (before matched after rep : List Char)
    (h : ¬ '$' ∈ rep) :
    expandDollar before matched after rep = rep := by
  induction rep with
  | nil => rfl
  | cons c rest ih =>
    have hc : ¬ c = '$' := fun hcc => h (by simp [hcc])
    have hrest : ¬ '$' ∈ rest := fun hm => h (List.mem_cons_of_mem _ hm)
    rw [expandDollar.eq_def]
    simp [hc, ih hrest]

/-- The replacement scan walks over a character that cannot start the
pattern, extending the walked-past prefix. -/
theorem replaceAllAux_skip (p1 rep pre : List Char) (b : Char)
    (hb : ¬ b = '\x7b') (s : List Char) :
    replaceAllAux ('\x7b' :: p1) rep pre (b :: s)
      = b :: replaceAllAux ('\x7b' :: p1) rep (pre ++ [b]) s := by
  have hbc : (('\x7b' : Char) == b) = false := by
    simp only [beq_eq_false_iff_ne, ne_eq]
    exact fun h => hb h.symm
  have hp : patHead ('\x7b' :: p1) (b :: s) = false := by
    simp [patHead, hbc]
  simp [replaceAllAux, hp]

/-- The replacement scan passes unchanged over a brace-free prefix. -/
theorem replaceAllAux_through (pat p1 rep : List Char)
    (hpat : pat = '\x7b' :: p1) (B : List Char) (hB : ¬ '\x7b' ∈ B)
    (pre s : List Char) :
    replaceAllAux pat rep pre (B ++ s)
      = B ++ replaceAllAux pat rep (pre ++ B) s := by
  subst hpat
  induction B generalizing pre with
  | nil => simp
  | cons b bs ih =>
    have hb : ¬ b = '\x7b' := fun h => hB (by simp [h])
    rw [List.cons_append, replaceAllAux_skip p1 rep pre b hb,
      ih (fun h => hB (List.mem_cons_of_mem _ h)) (pre ++ [b]),
      List.append_assoc, List.singleton_append, List.cons_append]

/-- The replacement scan consumes an occurrence of the pattern sitting at
the head, emitting the `$`-expansion of the replacement against the
surrounding text. -/
theorem replaceAllAux_hit (pat p1 rep : List Char)
    (hpat : pat = '\x7b' :: p1) (pre s : List Char) :
    replaceAllAux pat rep pre (pat ++ s)
      = expandDollar pre pat s rep
          ++ replaceAllAux pat rep (pre ++ pat) s := by
  subst hpat
  have h1 : patHead ('\x7b' :: p1) ('\x7b' :: (p1 ++ s)) = true := by
    simp [patHead, patHead_same]
  show replaceAllAux _ _ _ ('\x7b' :: (p1 ++ s)) = _
  simp [replaceAllAux, h1, List.drop_left]

/-- The replacement scan is the identity where the pattern does not
occur. -/
theorem replaceAllAux_no_occur (pat rep s : List Char)
    (h : occursL pat s = false) :
    ∀ pre, replaceAllAux pat rep pre s = s := by
  induction s with
  | nil => intro pre; simp [replaceAllAux]
  | cons c cs ih =>
    intro pre
    rw [occursL] at h
    have h1 : patHead pat (c :: cs) = false := by
      cases hp : patHead pat (c :: cs) <;> simp_all
    have h2 : occursL pat cs = false := by
      cases ho : occursL pat cs <;> simp_all
    simp [replaceAllAux, h1, ih h2]

/-- A pattern starting with `{` can only occur in a string containing `{`. -/
theorem occursL_mem_of_head (p1 s : List Char)
    (h : occursL ('\x7b' :: p1) s = true) : '\x7b' ∈ s := by
  induction s with
  | nil => simp [occursL, patHead] at h
  | cons c cs ih =>
    rw [occursL] at h
    simp only [Bool.or_eq_true] at h
    cases h with
    | inl hp =>
      have hc : ('\x7b' : Char) = c := by
        have : (('\x7b' : Char) == c) = true := by
          cases hpc : (('\x7b' : Char) == c) <;> simp_all [patHead]
        simpa using this
      exact hc ▸ List.mem_cons_self _ _
    | inr ho => exact List.mem_cons_of_mem _ (ih ho)

/-! ## C5 — the default template, decomposed around its placeholders -/

/-- Literal text of the default template before `{sessionId}`. -/
def tplChunk1 : String :=
  "🔐 Instagram Session Data Detected\n\n📱 **Account Information:**\n• Session ID: "

/-- Literal text between `{sessionId}` and `{userId}`. -/
def tplChunk2 : String := "\n• User ID: "

/-- Literal text between `{userId}` and `{username}`. -/
def tplChunk3 : String := "\n• Username: "

/-- Literal text between `{username}` and `{timestamp}`. -/
def tplChunk4 : String := "\n\n⏰ **Timestamp:** "

/-- Literal text between `{timestamp}` and `{url}`. -/
def tplChunk5 : String := "\n🌐 **URL:** "

/-- Literal text of the default template after `{url}`. -/
def tplChunk6 : String :=
  "\n\n✅ Data extracted with user consent via Instagram Auto Session Manager"

/-- Default-template suffix starting right after `{sessionId}`. -/
def tplRest1 : String :=
  "\n• User ID: {userId}\n• Username: {username}\n\n⏰ **Timestamp:** {timestamp}\n🌐 **URL:** {url}\n\n✅ Data extracted with user consent via Instagram Auto Session Manager"

/-- Default-template suffix starting right after `{userId}`. -/
def tplRest2 : String :=
  "\n• Username: {username}\n\n⏰ **Timestamp:** {timestamp}\n🌐 **URL:** {url}\n\n✅ Data extracted with user consent via Instagram Auto Session Manager"

/-- Default-template suffix starting right after `{username}`. -/
def tplRest3 : String :=
  "\n\n⏰ **Timestamp:** {timestamp}\n🌐 **URL:** {url}\n\n✅ Data extracted with user consent via Instagram Auto Session Manager"

/-- Default-template suffix starting right after `{timestamp}`. -/
def tplRest4 : String :=
  "\n🌐 **URL:** {url}\n\n✅ Data extracted with user consent via Instagram Auto Session Manager"

set_option maxRecDepth 8192 in
/-- The five-stage substitution pipeline on the default template, fully
characterised: with replacement values free of braces (which would fake
placeholder starts) and of dollar signs (which the JS replacement string
semantics, faithfully embedded in `expandDollar`, would expand), the
result is exactly the six literal chunks interleaved with the five
values. -/
theorem formatPipeline (w1 w2 w3 w4 w5 : List Char)
    (h1 : ¬ '\x7b' ∈ w1) (h2 : ¬ '\x7b' ∈ w2) (h3 : ¬ '\x7b' ∈ w3)
    (h4 : ¬ '\x7b' ∈ w4)
    (g1 : ¬ '$' ∈ w1) (g2 : ¬ '$' ∈ w2) (g3 : ¬ '$' ∈ w3)
    (g4 : ¬ '$' ∈ w4) (g5 : ¬ '$' ∈ w5) :
    replaceAllL ("{url}").data w5
      (replaceAllL ("{timestamp}").data w4
        (replaceAllL ("{username}").data w3
          (replaceAllL ("{userId}").data w2
            (replaceAllL ("{sessionId}").data w1 defaultTemplate.data))))
    = tplChunk1.data ++ (w1 ++ (tplChunk2.data ++ (w2 ++ (tplChunk3.data
        ++ (w3 ++ (tplChunk4.data ++ (w4 ++ (tplChunk5.data
        ++ (w5 ++ tplChunk6.data))))))))) := by
  have hC1 : ¬ '\x7b' ∈ tplChunk1.data := by decide
  have hC2 : ¬ '\x7b' ∈ tplChunk2.data := by decide
  have hC3 : ¬ '\x7b' ∈ tplChunk3.data := by decide
  have hC4 : ¬ '\x7b' ∈ tplChunk4.data := by decide
  have hC5 : ¬ '\x7b' ∈ tplChunk5.data := by decide
  have e1 : ("{sessionId}").data = '\x7b' :: ("sessionId\x7d").data := rfl
  have e2 : ("{userId}").data = '\x7b' :: ("userId\x7d").data := rfl
  have e3 : ("{username}").data = '\x7b' :: ("username\x7d").data := rfl
  have e4 : ("{timestamp}").data = '\x7b' :: ("timestamp\x7d").data := rfl
  have e5 : ("{url}").data = '\x7b' :: ("url\x7d").data := rfl
  have d0 : defaultTemplate.data
      = tplChunk1.data ++ (("{sessionId}").data ++ tplRest1.data) := by decide
  have r1 : tplRest1.data
      = tplChunk2.data ++ (("{userId}").data ++ tplRest2.data) := by decide
  have r2 : tplRest2.data
      = tplChunk3.data ++ (("{username}").data ++ tplRest3.data) := by decide
  have r3 : tplRest3.data
      = tplChunk4.data ++ (("{timestamp}").data ++ tplRest4.data) := by decide
  have r4 : tplRest4.data
      = tplChunk5.data ++ (("{url}").data ++ tplChunk6.data) := by decide
  have o1 : occursL ("{sessionId}").data tplRest1.data = false := by decide
  have o2 : occursL ("{userId}").data tplRest2.data = false := by decide
  have o3 : occursL ("{username}").data tplRest3.data = false := by decide
  have o4 : occursL ("{timestamp}").data tplRest4.data = false := by decide
  have o5 : occursL ("{url}").data tplChunk6.data = false := by decide
  have s1 : replaceAllL ("{sessionId}").data w1 defaultTemplate.data
      = tplChunk1.data ++ (w1 ++ tplRest1.data) := by
    simp only [replaceAllL]
    rw [d0, replaceAllAux_through _ _ _ e1 _ hC1, replaceAllAux_hit _ _ _ e1,
      expandDollar_no_dollar _ _ _ _ g1, replaceAllAux_no_occur _ _ _ o1]
  have s2 : replaceAllL ("{userId}").data w2
        (tplChunk1.data ++ (w1 ++ tplRest1.data))
      = tplChunk1.data ++ (w1 ++ (tplChunk2.data ++ (w2 ++ tplRest2.data))) := by
    simp only [replaceAllL]
    rw [r1, replaceAllAux_through _ _ _ e2 _ hC1, replaceAllAux_through _ _ _ e2 _ h1,
      replaceAllAux_through _ _ _ e2 _ hC2, replaceAllAux_hit _ _ _ e2,
      expandDollar_no_dollar _ _ _ _ g2, replaceAllAux_no_occur _ _ _ o2]
  have s3 : replaceAllL ("{username}").data w3
        (tplChunk1.data ++ (w1 ++ (tplChunk2.data ++ (w2 ++ tplRest2.data))))
      = tplChunk1.data ++ (w1 ++ (tplChunk2.data ++ (w2 ++ (tplChunk3.data
          ++ (w3 ++ tplRest3.data))))) := by
    simp only [replaceAllL]
    rw [r2, replaceAllAux_through _ _ _ e3 _ hC1, replaceAllAux_through _ _ _ e3 _ h1,
      replaceAllAux_through _ _ _ e3 _ hC2, replaceAllAux_through _ _ _ e3 _ h2,
      replaceAllAux_through _ _ _ e3 _ hC3, replaceAllAux_hit _ _ _ e3,
      expandDollar_no_dollar _ _ _ _ g3, replaceAllAux_no_occur _ _ _ o3]
  have s4 : replaceAllL ("{timestamp}").data w4
        (tplChunk1.data ++ (w1 ++ (tplChunk2.data ++ (w2 ++ (tplChunk3.data
          ++ (w3 ++ tplRest3.data))))))
      = tplChunk1.data ++ (w1 ++ (tplChunk2.data ++ (w2 ++ (tplChunk3.data
          ++ (w3 ++ (tplChunk4.data ++ (w4 ++ tplRest4.data))))))) := by
    simp only [replaceAllL]
    rw [r3, replaceAllAux_through _ _ _ e4 _ hC1, replaceAllAux_through _ _ _ e4 _ h1,
      replaceAllAux_through _ _ _ e4 _ hC2, replaceAllAux_through _ _ _ e4 _ h2,
      replaceAllAux_through _ _ _ e4 _ hC3, replaceAllAux_through _ _ _ e4 _ h3,
      replaceAllAux_through _ _ _ e4 _ hC4, replaceAllAux_hit _ _ _ e4,
      expandDollar_no_dollar _ _ _ _ g4, replaceAllAux_no_occur _ _ _ o4]
  have s5 : replaceAllL ("{url}").data w5
        (tplChunk1.data ++ (w1 ++ (tplChunk2.data ++ (w2 ++ (tplChunk3.data
          ++ (w3 ++ (tplChunk4.data ++ (w4 ++ tplRest4.data))))))))
      = tplChunk1.data ++ (w1 ++ (tplChunk2.data ++ (w2 ++ (tplChunk3.data
          ++ (w3 ++ (tplChunk4.data ++ (w4 ++ (tplChunk5.data
          ++ (w5 ++ tplChunk6.data))))))))) := by
    simp only [replaceAllL]
    rw [r4, replaceAllAux_through _ _ _ e5 _ hC1, replaceAllAux_through _ _ _ e5 _ h1,
      replaceAllAux_through _ _ _ e5 _ hC2, replaceAllAux_through _ _ _ e5 _ h2,
      replaceAllAux_through _ _ _ e5 _ hC3, replaceAllAux_through _ _ _ e5 _ h3,
      replaceAllAux_through _ _ _ e5 _ hC4, replaceAllAux_through _ _ _ e5 _ h4,
      replaceAllAux_through _ _ _ e5 _ hC5, replaceAllAux_hit _ _ _ e5,
      expandDollar_no_dollar _ _ _ _ g5, replaceAllAux_no_occur _ _ _ o5]
  rw [s1, s2, s3, s4, s5]

/-! ## C5 — template totality, corrected -/

set_option maxRecDepth 8192 in
/-- C5 amended: with the shipped default template and replacement values
free of `{` and of `$` (so that neither a fake placeholder start nor a JS
`$`-replacement expansion can interfere; the session-id validators admit
only `[a-zA-Z0-9%]+`, which satisfies both), both formatters produce
exactly the template's literal chunks interleaved with the substituted
values — so no unresolved placeholder token survives — and a missing
`userId`/`username`/`sessionId` renders as `"Not found"`, while a missing
`url` renders as `"Unknown"` in the Coordinator's formatter and as the
consent page's own URL in the Consent Surface's formatter (never as
`"Not found"`), and a missing timestamp renders through date formatting. -/
theorem template_totality (locale : Option String → String) (sd : SessionData)
    (pageHref : String)
    (h1 : ¬ '\x7b' ∈ (jsOr sd.sessionId "Not found").data)
    (h2 : ¬ '\x7b' ∈ (jsOr sd.userId "Not found").data)
    (h3 : ¬ '\x7b' ∈ (jsOr sd.username "Not found").data)
    (h4 : ¬ '\x7b' ∈ (locale sd.extractedAt).data)
    (h5 : ¬ '\x7b' ∈ (jsOr sd.url "Unknown").data)
    (h6 : ¬ '\x7b' ∈ (jsOr sd.url pageHref).data)
    (g1 : ¬ '$' ∈ (jsOr sd.sessionId "Not found").data)
    (g2 : ¬ '$' ∈ (jsOr sd.userId "Not found").data)
    (g3 : ¬ '$' ∈ (jsOr sd.username "Not found").data)
    (g4 : ¬ '$' ∈ (locale sd.extractedAt).data)
    (g5 : ¬ '$' ∈ (jsOr sd.url "Unknown").data)
    (g6 : ¬ '$' ∈ (jsOr sd.url pageHref).data) :
    ((formatTelegramMessage locale sd "").data
      = tplChunk1.data ++ ((jsOr sd.sessionId "Not found").data
        ++ (tplChunk2.data ++ ((jsOr sd.userId "Not found").data
        ++ (tplChunk3.data ++ ((jsOr sd.username "Not found").data
        ++ (tplChunk4.data ++ ((locale sd.extractedAt).data
        ++ (tplChunk5.data ++ ((jsOr sd.url "Unknown").data
        ++ tplChunk6.data))))))))))
    ∧ ((formatTelegramMessageConsent locale pageHref sd "").data
      = tplChunk1.data ++ ((jsOr sd.sessionId "Not found").data
        ++ (tplChunk2.data ++ ((jsOr sd.userId "Not found").data
        ++ (tplChunk3.data ++ ((jsOr sd.username "Not found").data
        ++ (tplChunk4.data ++ ((locale sd.extractedAt).data
        ++ (tplChunk5.data ++ ((jsOr sd.url pageHref).data
        ++ tplChunk6.data))))))))))
    ∧ (∀ pat ∈ ["{sessionId}", "{userId}", "{username}", "{timestamp}", "{url}"],
        occursL (String.data pat) (formatTelegramMessage locale sd "").data = false
        ∧ occursL (String.data pat) (formatTelegramMessageConsent locale pageHref sd "").data = false) := by
  have hC1 : ¬ '\x7b' ∈ tplChunk1.data := by decide
  have hC2 : ¬ '\x7b' ∈ tplChunk2.data := by decide
  have hC3 : ¬ '\x7b' ∈ tplChunk3.data := by decide
  have hC4 : ¬ '\x7b' ∈ tplChunk4.data := by decide
  have hC5 : ¬ '\x7b' ∈ tplChunk5.data := by decide
  have hC6 : ¬ '\x7b' ∈ tplChunk6.data := by decide
  have bg : (formatTelegramMessage locale sd "").data
      = tplChunk1.data ++ ((jsOr sd.sessionId "Not found").data
        ++ (tplChunk2.data ++ ((jsOr sd.userId "Not found").data
        ++ (tplChunk3.data ++ ((jsOr sd.username "Not found").data
        ++ (tplChunk4.data ++ ((locale sd.extractedAt).data
        ++ (tplChunk5.data ++ ((jsOr sd.url "Unknown").data
        ++ tplChunk6.data))))))))) :=
    formatPipeline _ _ _ _ _ h1 h2 h3 h4 g1 g2 g3 g4 g5
  have cs : (formatTelegramMessageConsent locale pageHref sd "").data
      = tplChunk1.data ++ ((jsOr sd.sessionId "Not found").data
        ++ (tplChunk2.data ++ ((jsOr sd.userId "Not found").data
        ++ (tplChunk3.data ++ ((jsOr sd.username "Not found").data
        ++ (tplChunk4.data ++ ((locale sd.extractedAt).data
        ++ (tplChunk5.data ++ ((jsOr sd.url pageHref).data
        ++ tplChunk6.data))))))))) :=
    formatPipeline _ _ _ _ _ h1 h2 h3 h4 g1 g2 g3 g4 g6
  have nb : ¬ '\x7b' ∈ (formatTelegramMessage locale sd "").data := by
    rw [bg]
    simp only [List.mem_append]
    rintro (h | h | h | h | h | h | h | h | h | h | h)
    exacts [hC1 h, h1 h, hC2 h, h2 h, hC3 h, h3 h, hC4 h, h4 h, hC5 h, h5 h, hC6 h]
  have nbc : ¬ '\x7b' ∈ (formatTelegramMessageConsent locale pageHref sd "").data := by
    rw [cs]
    simp only [List.mem_append]
    rintro (h | h | h | h | h | h | h | h | h | h | h)
    exacts [hC1 h, h1 h, hC2 h, h2 h, hC3 h, h3 h, hC4 h, h4 h, hC5 h, h6 h, hC6 h]
  have noPh : ∀ (tail msg : List Char), ¬ '\x7b' ∈ msg →
      occursL ('\x7b' :: tail) msg = false := by
    intro tail msg hnb
    cases ho : occursL ('\x7b' :: tail) msg
    · rfl
    · exact absurd (occursL_mem_of_head tail msg ho) hnb
  refine ⟨bg, cs, ?_⟩
  intro pat hpat
  have e1 : ("{sessionId}").data = '\x7b' :: ("sessionId\x7d").data := rfl
  have e2 : ("{userId}").data = '\x7b' :: ("userId\x7d").data := rfl
  have e3 : ("{username}").data = '\x7b' :: ("username\x7d").data := rfl
  have e4 : ("{timestamp}").data = '\x7b' :: ("timestamp\x7d").data := rfl
  have e5 : ("{url}").data = '\x7b' :: ("url\x7d").data := rfl
  simp only [List.mem_cons, List.not_mem_nil, or_false] at hpat
  rcases hpat with rfl | rfl | rfl | rfl | rfl
  · exact ⟨by rw [e1]; exact noPh _ _ nb, by rw [e1]; exact noPh _ _ nbc⟩
  · exact ⟨by rw [e2]; exact noPh _ _ nb, by rw [e2]; exact noPh _ _ nbc⟩
  · exact ⟨by rw [e3]; exact noPh _ _ nb, by rw [e3]; exact noPh _ _ nbc⟩
  · exact ⟨by rw [e4]; exact noPh _ _ nb, by rw [e4]; exact noPh _ _ nbc⟩
  · exact ⟨by rw [e5]; exact noPh _ _ nb, by rw [e5]; exact noPh _ _ nbc⟩

/-- A concrete date renderer (the value `new Date(x).toLocaleString()`
produces for the fixed extraction instant) for the C5 concrete
statements. -/
def c5locale : Option String → String := fun _ => "1/1/2025, 12:00:00 AM"

/-- The C5 counterexample artifact: every field present except `url`. -/
def c5sd : SessionData :=
  { sessionId := some "abcdefghij1234567890abcd", userId := some "123456",
    username := some "alice", extractedAt := some "2025-01-01T00:00:00.000Z",
    url := none }

set_option maxRecDepth 8192 in
/-- C5 counterexample: for an artifact whose only missing field is `url`,
the Coordinator's formatted message contains the token `"Unknown"` and the
token `"Not found"` nowhere — so a missing artifact field is *not* always
rendered as the literal `"Not found"` the claim demands. -/
theorem formatTelegramMessage_url_counterexample :
    c5sd.url = none
    ∧ occursL ("Not found").data (formatTelegramMessage c5locale c5sd "").data = false
    ∧ occursL ("Unknown").data (formatTelegramMessage c5locale c5sd "").data = true := by
  have hbg := formatPipeline (jsOr c5sd.sessionId "Not found").data
    (jsOr c5sd.userId "Not found").data (jsOr c5sd.username "Not found").data
    (c5locale c5sd.extractedAt).data (jsOr c5sd.url "Unknown").data
    (by decide) (by decide) (by decide) (by decide)
    (by decide) (by decide) (by decide) (by decide) (by decide)
  refine ⟨rfl, ?_, ?_⟩ <;>
    rw [show (formatTelegramMessage c5locale c5sd "").data = _ from hbg] <;> decide

/-- The C5 witness artifact: `userId`, `username` and `url` all missing. -/
def c5wsd : SessionData :=
  { sessionId := some "abcdefghij1234567890", userId := none, username := none,
    extractedAt := some "2025-01-01T00:00:00.000Z", url := none }

/-- C5 witness for the amended theorem: on a concrete artifact with all
optional fields missing, no `{url}` token survives in the Coordinator's
message and no `{userId}` token survives in the Consent Surface's. -/
theorem template_totality_witness :
    occursL ("{url}").data (formatTelegramMessage c5locale c5wsd "").data = false
    ∧ occursL ("{userId}").data
        (formatTelegramMessageConsent c5locale "https://www.instagram.com/" c5wsd "").data = false := by
  have h := template_totality c5locale c5wsd "https://www.instagram.com/"
    (by decide) (by decide) (by decide) (by decide) (by decide) (by decide)
    (by decide) (by decide) (by decide) (by decide) (by decide) (by decide)
  exact ⟨(h.2.2 "{url}" (by simp)).1, (h.2.2 "{userId}" (by simp)).2⟩
